import Mathlib

/-!
Verification development for the schema-strimzi-operator core: a shallow
embedding of the Schema Registry protocol client (internal/client/client.go),
the credential resolver (internal/controller/helpers.go), and the two
reconcilers (the Schema lifecycle reconciler and the SchemaRegistry
connectivity reconciler), together with theorems about their behaviour.

Modelling conventions:
- HTTP exchanges are abstracted by `HttpOutcome`: either a transport error
  (the Go `httpClient.Do` returning an error) or a response with a status
  code and a raw body string.
- Go's `encoding/json` unmarshalling, used by the client only on flat JSON
  objects with integer and string fields, is modelled by a small executable
  parser for exactly that shape (`parseFlatObj`), with Go's semantics for
  missing fields (zero value) and type mismatches (decode error).
- The Kubernetes API server is modelled by a `Cluster` of association lists;
  Get either finds the object or reports not-found, and writes succeed.
- Machine integers (Go `int`) are modelled as `Int`; none of the verified
  behaviour involves overflow.
-/

namespace SchemaOperator

/-- Result of one HTTP exchange: a transport-level error from the Go
`http.Client.Do` call, or a response carrying a status code and body. -/
inductive HttpOutcome where
  | transportErr (msg : String)
  | resp (status : Nat) (body : String)
deriving DecidableEq, Repr

/-- A JSON field value in the flat objects the registry client decodes. -/
inductive JVal where
  | num (n : Int)
  | str (s : String)
deriving DecidableEq, Repr

def quoteChar : Char := Char.ofNat 34
def lbraceChar : Char := Char.ofNat 123
def rbraceChar : Char := Char.ofNat 125

/-- Skip JSON whitespace. -/
def skipWs : List Char → List Char
  | [] => []
  | c :: cs =>
    if c = ' ' ∨ c = '\t' ∨ c = '\n' ∨ c = '\r' then skipWs cs else c :: cs

/-- Take characters up to the closing quote of a JSON string literal
(the opening quote already consumed). -/
def takeUntilQuote : List Char → Option (List Char × List Char)
  | [] => none
  | c :: cs =>
    if c = quoteChar then some ([], cs)
    else (takeUntilQuote cs).map (fun p => (c :: p.1, p.2))

/-- Accumulate a run of decimal digits. -/
def digitsVal : List Char → Nat → Nat × List Char
  | [], acc => (acc, [])
  | c :: cs, acc =>
    if c.isDigit then digitsVal cs (10 * acc + (c.toNat - 48)) else (acc, c :: cs)

/-- Parse one JSON value: a string literal or an integer. -/
def parseJVal : List Char → Option (JVal × List Char)
  | [] => none
  | c :: cs =>
    if c = quoteChar then
      (takeUntilQuote cs).map (fun p => (JVal.str (String.mk p.1), p.2))
    else if c = '-' then
      match cs with
      | d :: _ =>
        if d.isDigit then
          let p := digitsVal cs 0
          some (JVal.num (-(p.1 : Int)), p.2)
        else none
      | [] => none
    else if c.isDigit then
      let p := digitsVal (c :: cs) 0
      some (JVal.num (p.1 : Int), p.2)
    else none

/-- Parse the comma-separated fields of a JSON object, consuming the
closing brace.  `fuel` bounds the recursion; each field consumes at least
one character, so the input length suffices. -/
def parseFieldList : Nat → List Char → Option (List (String × JVal) × List Char)
  | 0, _ => none
  | fuel + 1, cs0 =>
    match skipWs cs0 with
    | [] => none
    | c :: rest =>
      if c = quoteChar then
        match takeUntilQuote rest with
        | none => none
        | some (keyChars, afterKey) =>
          match skipWs afterKey with
          | [] => none
          | c2 :: rest2 =>
            if c2 = ':' then
              match parseJVal (skipWs rest2) with
              | none => none
              | some (v, afterVal) =>
                match skipWs afterVal with
                | [] => none
                | c3 :: rest3 =>
                  if c3 = ',' then
                    match parseFieldList fuel rest3 with
                    | none => none
                    | some (fs, rest4) => some ((String.mk keyChars, v) :: fs, rest4)
                  else if c3 = rbraceChar then
                    some ([(String.mk keyChars, v)], rest3)
                  else none
            else none
      else none

/-- Parse a flat JSON object (string keys, integer or string values).
Models Go `encoding/json` unmarshalling on the response shapes the
registry client decodes. -/
def parseFlatObj (s : String) : Option (List (String × JVal)) :=
  match skipWs s.toList with
  | [] => none
  | c :: rest =>
    if c = lbraceChar then
      let rest' := skipWs rest
      match rest' with
      | [] => none
      | c2 :: rest2 =>
        if c2 = rbraceChar then
          if (skipWs rest2).isEmpty then some [] else none
        else
          match parseFieldList rest'.length rest' with
          | none => none
          | some (fs, remaining) =>
            if (skipWs remaining).isEmpty then some fs else none
    else none

/-- Look up a field in a decoded JSON object. -/
def jLookup (fs : List (String × JVal)) (k : String) : Option JVal :=
  (fs.find? (fun p => p.1 = k)).map (fun p => p.2)

/-- Response struct for a registered schema (`SchemaResponse` in client.go). -/
structure SchemaResponse where
  id : Int
  version : Int
  schema : String
deriving DecidableEq, Repr

/-- Decode the register response into `struct { ID int }`, as
`json.Unmarshal` does: a missing field yields the zero value, a type
mismatch or malformed body is a decode error. -/
def decodeIdResp (body : String) : Option Int :=
  match parseFlatObj body with
  | none => none
  | some fs =>
    match jLookup fs "id" with
    | none => some 0
    | some (JVal.num n) => some n
    | some (JVal.str _) => none

/-- Decode a `SchemaResponse` from a latest-version response body, with
Go `encoding/json` semantics (missing field ⇒ zero value). -/
def decodeSchemaResponse (body : String) : Option SchemaResponse :=
  match parseFlatObj body with
  | none => none
  | some fs =>
    let idv : Option Int :=
      match jLookup fs "id" with
      | none => some 0
      | some (JVal.num n) => some n
      | some (JVal.str _) => none
    let ver : Option Int :=
      match jLookup fs "version" with
      | none => some 0
      | some (JVal.num n) => some n
      | some (JVal.str _) => none
    let sch : Option String :=
      match jLookup fs "schema" with
      | none => some ""
      | some (JVal.str s) => some s
      | some (JVal.num _) => none
    match idv, ver, sch with
    | some i, some v, some s => some ⟨i, v, s⟩
    | _, _, _ => none

/-- Returns `true` iff the operation failed. -/
def isErr {ε α : Type} : Except ε α → Bool
  | Except.error _ => true
  | Except.ok _ => false

instance {ε α : Type} [DecidableEq ε] [DecidableEq α] : DecidableEq (Except ε α) :=
  fun x y =>
    match x, y with
    | Except.error a, Except.error b => decidable_of_iff (a = b) (by simp)
    | Except.ok a, Except.ok b => decidable_of_iff (a = b) (by simp)
    | Except.error _, Except.ok _ => isFalse (by simp)
    | Except.ok _, Except.error _ => isFalse (by simp)

/-- Tests whether `s` contains `sub` as a contiguous substring. -/
def strContains (s sub : String) : Bool :=
  decide (sub.toList <:+: s.toList)

/-! ## Protocol client operations (internal/client/client.go)

Each operation is a pure function of the HTTP exchange(s) it performs;
URL construction, headers and authentication only shape the request and
are not observable in the outcome. -/

/-- Go `HealthCheck` (client.go): GET /subjects; transport error or non-200
is a failure.  The error for a non-200 names only the status. -/
def HealthCheck : HttpOutcome → Except String Unit
  | HttpOutcome.transportErr e => Except.error ("health check failed: " ++ e)
  | HttpOutcome.resp s _ =>
    if s ≠ 200 then Except.error ("health check failed with status: " ++ toString s)
    else Except.ok ()

/-- Go `getLatestVersionForSubject` (client.go): GET
/subjects/{subject}/versions/latest; returns the decoded version. -/
def getLatestVersionForSubject : HttpOutcome → Except String Int
  | HttpOutcome.transportErr e => Except.error ("failed to get latest version: " ++ e)
  | HttpOutcome.resp s body =>
    if s ≠ 200 then Except.error ("get latest version failed with status: " ++ toString s)
    else
      match decodeSchemaResponse body with
      | none => Except.error "failed to decode latest version response"
      | some r => Except.ok r.version

/-- Go `RegisterSchema` (client.go): POST the schema, decode `{id}` from the
200 response, then do a best-effort follow-up read of the subject's latest
version; if that follow-up fails, succeed with the id and a zero version. -/
def RegisterSchema (registerOutcome latestOutcome : HttpOutcome) :
    Except String SchemaResponse :=
  match registerOutcome with
  | HttpOutcome.transportErr e => Except.error ("failed to register schema: " ++ e)
  | HttpOutcome.resp s body =>
    if s ≠ 200 then
      Except.error ("schema registration failed with status " ++ toString s ++ ": " ++ body)
    else
      match decodeIdResp body with
      | none => Except.error "failed to decode register response"
      | some i =>
        match getLatestVersionForSubject latestOutcome with
        | Except.error _ => Except.ok ⟨i, 0, ""⟩
        | Except.ok v => Except.ok ⟨i, v, ""⟩

/-- Go `DeleteSubject` (client.go): DELETE /subjects/{subject}; 404 means
already gone and is success; any status other than 200/404 is an error
carrying status and body. -/
def DeleteSubject : HttpOutcome → Except String Unit
  | HttpOutcome.transportErr e => Except.error ("failed to delete subject: " ++ e)
  | HttpOutcome.resp s body =>
    if s = 404 then Except.ok ()
    else if s ≠ 200 then
      Except.error ("delete subject failed with status " ++ toString s ++ ": " ++ body)
    else Except.ok ()

/-- Go `SetCompatibility` (client.go): PUT /config/{subject}; non-200 is an
error carrying status and body. -/
def SetCompatibility : HttpOutcome → Except String Unit
  | HttpOutcome.transportErr e => Except.error ("failed to set compatibility: " ++ e)
  | HttpOutcome.resp s body =>
    if s ≠ 200 then
      Except.error ("set compatibility failed with status " ++ toString s ++ ": " ++ body)
    else Except.ok ()

/-! ## Kubernetes API data model (api/v1alpha1) -/

/-- A namespace/name pair identifying a cluster object.  The Go field
`Namespace` is rendered `ns` because `namespace` is a Lean keyword. -/
structure NamespacedName where
  ns : String
  name : String
deriving DecidableEq, Repr

/-- Go `metav1.ConditionStatus`: True / False / Unknown. -/
inductive ConditionStatus where
  | conditionTrue
  | conditionFalse
  | conditionUnknown
deriving DecidableEq, Repr

/-- Go `metav1.Condition` restricted to the fields the operator writes
(LastTransitionTime is maintained by the apimachinery helper and never
read by this code).  The Go field `Type` is rendered `condType`. -/
structure Condition where
  condType : String
  status : ConditionStatus
  reason : String
  message : String
  observedGeneration : Int
deriving DecidableEq, Repr

/-- Go `meta.SetStatusCondition`: upsert keyed by condition type — replace the
existing condition of that type, else append. -/
def setStatusCondition (conds : List Condition) (c : Condition) : List Condition :=
  if conds.any (fun x => x.condType = c.condType) then
    conds.map (fun x => if x.condType = c.condType then c else x)
  else conds ++ [c]

/-- Object metadata: the fields the reconcilers read or write.  The
deletion timestamp is modelled by its presence (`DeletionTimestamp.IsZero()`
in Go is its negation); timestamps are abstract `Nat` instants. -/
structure ObjectMeta where
  name : String
  ns : String
  generation : Int
  deletionTimestampSet : Bool
  finalizers : List String
deriving DecidableEq, Repr

/-- Go `SchemaReference` (schema_types.go). -/
structure SchemaReferenceSpec where
  name : String
  subject : String
  version : Int
deriving DecidableEq, Repr

/-- Go `SchemaRegistryRef` (schema_types.go). -/
structure SchemaRegistryRef where
  name : String
  ns : String
deriving DecidableEq, Repr

/-- Go `SchemaSpec` (schema_types.go).  `schemaType` and `compatibilityLevel`
are kept as strings, as the controller only converts / compares them. -/
structure SchemaSpec where
  subject : String
  schemaType : String
  schema : String
  references : List SchemaReferenceSpec
  registryRef : SchemaRegistryRef
  compatibilityLevel : String
deriving DecidableEq, Repr

/-- Go `SchemaStatus` (schema_types.go): optional pointers become `Option`. -/
structure SchemaStatus where
  schemaID : Option Int
  version : Option Int
  registeredAt : Option Nat
  observedGeneration : Int
  conditions : List Condition
deriving DecidableEq, Repr

/-- The `Schema` resource. -/
structure Schema where
  metadata : ObjectMeta
  spec : SchemaSpec
  status : SchemaStatus
deriving DecidableEq, Repr

/-- Go `AuthType` (schemaregistry_types.go). -/
inductive AuthType where
  | none_
  | basic
  | bearer
  | mtls
deriving DecidableEq, Repr

/-- String form of an `AuthType`, as stored in the client `AuthConfig.Type`. -/
def AuthType.toStr : AuthType → String
  | AuthType.none_ => "NONE"
  | AuthType.basic => "BASIC"
  | AuthType.bearer => "BEARER"
  | AuthType.mtls => "MTLS"

/-- Go `BasicAuthConfig` (schemaregistry_types.go). -/
structure BasicAuthConfig where
  secretRef : String
deriving DecidableEq, Repr

/-- Go `BearerAuthConfig` (schemaregistry_types.go). -/
structure BearerAuthConfig where
  secretRef : String
deriving DecidableEq, Repr

/-- Go `MTLSConfig` (schemaregistry_types.go); an empty `caSecretRef` means
no CA secret is referenced. -/
structure MTLSConfig where
  certSecretRef : String
  caSecretRef : String
deriving DecidableEq, Repr

/-- Go `AuthConfig` in the API types (the declared auth strategy). -/
structure AuthSpec where
  authType : AuthType
  basicAuth : Option BasicAuthConfig
  bearerAuth : Option BearerAuthConfig
  mtls : Option MTLSConfig
deriving DecidableEq, Repr

/-- Go `SchemaRegistrySpec` (schemaregistry_types.go). -/
structure SchemaRegistrySpec where
  url : String
  auth : Option AuthSpec
  insecureSkipVerify : Bool
  timeout : Int
deriving DecidableEq, Repr

/-- Go `SchemaRegistryStatus` (schemaregistry_types.go). -/
structure SchemaRegistryStatus where
  connectionStatus : String
  lastChecked : Option Nat
  observedGeneration : Int
  conditions : List Condition
deriving DecidableEq, Repr

/-- The `SchemaRegistry` resource. -/
structure SchemaRegistry where
  metadata : ObjectMeta
  spec : SchemaRegistrySpec
  status : SchemaRegistryStatus
deriving DecidableEq, Repr

/-- A Kubernetes `Secret`: named byte-string fields.  Go's
`secret.Data[key]` yields the zero value (empty string) for a missing
key; `Secret.get` mirrors that. -/
structure Secret where
  data : List (String × String)
deriving DecidableEq, Repr

def Secret.get (s : Secret) (k : String) : String :=
  match s.data.find? (fun p => p.1 = k) with
  | some p => p.2
  | none => ""

/-- Whether the secret carries a key at all (distinct from carrying an
empty value). -/
def Secret.hasKey (s : Secret) (k : String) : Bool :=
  s.data.any (fun p => p.1 = k)

/-- The cluster contents visible to the reconcilers.  Get is lookup;
writes succeed (write conflicts and non-notfound API errors are outside
the verified behaviour). -/
structure Cluster where
  schemas : List (NamespacedName × Schema)
  registries : List (NamespacedName × SchemaRegistry)
  secrets : List (NamespacedName × Secret)
deriving DecidableEq, Repr

def Cluster.getSchema (c : Cluster) (k : NamespacedName) : Option Schema :=
  (c.schemas.find? (fun p => p.1 = k)).map (fun p => p.2)

def Cluster.getRegistry (c : Cluster) (k : NamespacedName) : Option SchemaRegistry :=
  (c.registries.find? (fun p => p.1 = k)).map (fun p => p.2)

def Cluster.getSecret (c : Cluster) (k : NamespacedName) : Option Secret :=
  (c.secrets.find? (fun p => p.1 = k)).map (fun p => p.2)

/-- Persist an update of an existing Schema (no-op on an absent key,
matching Update's requirement that the object exist). -/
def Cluster.putSchema (c : Cluster) (k : NamespacedName) (s : Schema) : Cluster :=
  { c with schemas := c.schemas.map (fun p => if p.1 = k then (k, s) else p) }

def Cluster.putRegistry (c : Cluster) (k : NamespacedName) (r : SchemaRegistry) : Cluster :=
  { c with registries := c.registries.map (fun p => if p.1 = k then (k, r) else p) }

/-! ## Credential resolver (internal/controller/helpers.go) -/

/-- A parsed client certificate/key pair (Go `tls.Certificate`). -/
structure TLSCert where
  crt : String
  key : String
deriving DecidableEq, Repr

/-- Model of Go `tls.X509KeyPair`: parsing fails when either PEM input is
empty ("failed to find any PEM data"), which is what a missing secret key
produces; presence of both blocks is modelled as a successful parse. -/
def X509KeyPair (certPEM keyPEM : String) : Option TLSCert :=
  if certPEM.isEmpty ∨ keyPEM.isEmpty then none else some ⟨certPEM, keyPEM⟩

/-- The client-side `AuthConfig` (client.go): the resolved credential
bundle.  `clientCert = none` is the Go zero-value `tls.Certificate`;
`caCert` is the optional CA pool, holding the appended `ca.crt` PEM. -/
structure AuthConfig where
  authType : String
  username : String
  password : String
  bearerToken : String
  clientCert : Option TLSCert
  caCert : Option String
deriving DecidableEq, Repr

/-- The empty credential bundle `loadAuthConfig` starts from. -/
def emptyAuthConfig : AuthConfig :=
  ⟨"NONE", "", "", "", none, none⟩

/-- Go `loadAuthConfig` (helpers.go): resolve the declared auth strategy and
its referenced secrets (looked up in the registry's namespace) into a
credential bundle. -/
def loadAuthConfig (c : Cluster) (sr : SchemaRegistry) : Except String AuthConfig :=
  match sr.spec.auth with
  | none => Except.ok emptyAuthConfig
  | some auth =>
    let cfg := { emptyAuthConfig with authType := auth.authType.toStr }
    match auth.authType with
    | AuthType.none_ => Except.ok cfg
    | AuthType.basic =>
      match auth.basicAuth with
      | none => Except.error "basicAuth config is required when type is BASIC"
      | some b =>
        match c.getSecret ⟨sr.metadata.ns, b.secretRef⟩ with
        | none => Except.error ("failed to get basic auth secret " ++ b.secretRef)
        | some secret =>
          Except.ok { cfg with
            username := secret.get "username"
            password := secret.get "password" }
    | AuthType.bearer =>
      match auth.bearerAuth with
      | none => Except.error "bearerAuth config is required when type is BEARER"
      | some b =>
        match c.getSecret ⟨sr.metadata.ns, b.secretRef⟩ with
        | none => Except.error ("failed to get bearer auth secret " ++ b.secretRef)
        | some secret =>
          Except.ok { cfg with bearerToken := secret.get "token" }
    | AuthType.mtls =>
      match auth.mtls with
      | none => Except.error "mtls config is required when type is MTLS"
      | some m =>
        match c.getSecret ⟨sr.metadata.ns, m.certSecretRef⟩ with
        | none => Except.error ("failed to get client cert secret " ++ m.certSecretRef)
        | some certSecret =>
          match X509KeyPair (certSecret.get "tls.crt") (certSecret.get "tls.key") with
          | none => Except.error "failed to parse client certificate"
          | some cert =>
            if m.caSecretRef ≠ "" then
              match c.getSecret ⟨sr.metadata.ns, m.caSecretRef⟩ with
              | none => Except.error ("failed to get CA cert secret " ++ m.caSecretRef)
              | some caSecret =>
                Except.ok { cfg with
                  clientCert := some cert
                  caCert := some (caSecret.get "ca.crt") }
            else
              Except.ok { cfg with clientCert := some cert }

/-! ## Building the protocol client -/

/-- The constructed client (client.go `SchemaRegistryClient` plus its
HTTP-client settings). -/
structure SchemaRegistryClient where
  baseURL : String
  auth : AuthConfig
  timeoutSeconds : Int
  insecureSkipVerify : Bool
deriving DecidableEq, Repr

/-- Go `NewClient` (client.go): builds the HTTP client; it never fails (its
error return is always nil). -/
def NewClient (baseURL : String) (auth : AuthConfig) (timeoutSeconds : Int)
    (insecureSkipVerify : Bool) : Except String SchemaRegistryClient :=
  Except.ok ⟨baseURL, auth, timeoutSeconds, insecureSkipVerify⟩

/-! ## Reconcilers

A reconcile invocation is a pure function of the cluster, the request key,
the current instant, and the outcomes of the HTTP exchanges the registry
would answer during this invocation. -/

/-- Go `ctrl.Result`: `requeueAfterSeconds = 0` is the empty result. -/
structure ReconcileResult where
  requeueAfterSeconds : Nat
deriving DecidableEq, Repr

/-- The effect of one reconcile: the updated cluster, the returned
`ctrl.Result`, and the returned error (if any). -/
structure ReconcileOutcome where
  cluster : Cluster
  result : ReconcileResult
  err : Option String
deriving DecidableEq, Repr

/-- The registry's answers to the HTTP exchanges a Schema reconcile may
perform. -/
structure RegistryWorld where
  registerOutcome : HttpOutcome
  latestOutcome : HttpOutcome
  setCompatOutcome : HttpOutcome
  deleteOutcome : HttpOutcome
deriving DecidableEq, Repr

def schemaFinalizer : String := "registry.strimzi.io/schema-finalizer"

namespace SchemaReconciler

/-- Go `SchemaReconciler.buildClient`: resolve the referenced SchemaRegistry
(defaulting its namespace to the Schema's), load auth, default a zero
timeout to 30 seconds, and construct the client. -/
def buildClient (c : Cluster) (schema : Schema) : Except String SchemaRegistryClient :=
  let registryNs :=
    if schema.spec.registryRef.ns = "" then schema.metadata.ns
    else schema.spec.registryRef.ns
  match c.getRegistry ⟨registryNs, schema.spec.registryRef.name⟩ with
  | none => Except.error ("failed to get SchemaRegistry " ++ schema.spec.registryRef.name)
  | some sr =>
    match loadAuthConfig c sr with
    | Except.error e => Except.error e
    | Except.ok authConfig =>
      let timeout := if sr.spec.timeout = 0 then 30 else sr.spec.timeout
      NewClient sr.spec.url authConfig timeout sr.spec.insecureSkipVerify

/-- Go `SchemaReconciler.deleteFromRegistry`: if the client cannot be built
(registry gone or credentials unresolvable), skip remote cleanup and
succeed; otherwise delete the subject. -/
def deleteFromRegistry (w : RegistryWorld) (c : Cluster) (schema : Schema) :
    Except String Unit :=
  match buildClient c schema with
  | Except.error _ => Except.ok ()
  | Except.ok _ => DeleteSubject w.deleteOutcome

/-- Go `SchemaReconciler.setConditionFailed`: re-fetch, upsert a
Ready=False condition, and update status (only the condition list
changes). -/
def setConditionFailed (c : Cluster) (key : NamespacedName)
    (reason message : String) : Cluster × Option String :=
  match c.getSchema key with
  | none => (c, none)
  | some schema =>
    let cond : Condition :=
      ⟨"Ready", ConditionStatus.conditionFalse, reason, message,
        schema.metadata.generation⟩
    let schema' := { schema with
      status := { schema.status with
        conditions := setStatusCondition schema.status.conditions cond } }
    (c.putSchema key schema', none)

/-- Go `SchemaReconciler.Reconcile` (schema controller): deletion path with
finalizer-gated cleanup, finalizer attach, registration, best-effort
compatibility, and status commit. -/
def Reconcile (w : RegistryWorld) (now : Nat) (c : Cluster)
    (req : NamespacedName) : ReconcileOutcome :=
  match c.getSchema req with
  | none => ⟨c, ⟨0⟩, none⟩
  | some schema =>
    if schema.metadata.deletionTimestampSet then
      if schemaFinalizer ∈ schema.metadata.finalizers then
        match deleteFromRegistry w c schema with
        | Except.error e => ⟨c, ⟨0⟩, some e⟩
        | Except.ok _ =>
          let schema' := { schema with
            metadata := { schema.metadata with
              finalizers := schema.metadata.finalizers.filter
                (fun f => f ≠ schemaFinalizer) } }
          ⟨c.putSchema req schema', ⟨0⟩, none⟩
      else ⟨c, ⟨0⟩, none⟩
    else
      -- Add the finalizer if missing, persist, and re-fetch.
      let schema1 :=
        if schemaFinalizer ∈ schema.metadata.finalizers then schema
        else { schema with
          metadata := { schema.metadata with
            finalizers := schema.metadata.finalizers ++ [schemaFinalizer] } }
      let c1 :=
        if schemaFinalizer ∈ schema.metadata.finalizers then c
        else c.putSchema req schema1
      match buildClient c1 schema1 with
      | Except.error e =>
        let u := setConditionFailed c1 req "ClientBuildFailed" e
        ⟨u.1, ⟨60⟩, u.2⟩
      | Except.ok _ =>
        match RegisterSchema w.registerOutcome w.latestOutcome with
        | Except.error e =>
          let u := setConditionFailed c1 req "RegistrationFailed" e
          ⟨u.1, ⟨60⟩, u.2⟩
        | Except.ok resp =>
          -- Compatibility is best-effort: its outcome is logged, not used.
          let readyCond : Condition :=
            ⟨"Ready", ConditionStatus.conditionTrue, "Registered",
              "Schema registered with ID " ++ toString resp.id ++ ", version "
                ++ toString resp.version,
              schema1.metadata.generation⟩
          let schema2 := { schema1 with
            status :=
              ⟨some resp.id, some resp.version, some now,
                schema1.metadata.generation,
                setStatusCondition schema1.status.conditions readyCond⟩ }
          ⟨c1.putSchema req schema2, ⟨0⟩, none⟩

/-- Go `SchemaReconciler.findSchemasForRegistry`: list Schemas in the
registry's namespace and enqueue those whose registryRef names it. -/
def findSchemasForRegistry (c : Cluster) (registry : ObjectMeta) :
    List NamespacedName :=
  let items := (c.schemas.map (fun p => p.2)).filter
    (fun s => s.metadata.ns = registry.ns)
  (items.filter (fun s => s.spec.registryRef.name = registry.name)).map
    (fun s => ⟨s.metadata.ns, s.metadata.name⟩)

end SchemaReconciler

namespace SchemaRegistryReconciler

/-- Go `SchemaRegistryReconciler.setConditionFailed`: re-fetch, upsert a
Ready=False condition, mark the connection Unreachable, update status. -/
def setConditionFailed (c : Cluster) (key : NamespacedName)
    (reason message : String) : Cluster × Option String :=
  match c.getRegistry key with
  | none => (c, none)
  | some sr =>
    let cond : Condition :=
      ⟨"Ready", ConditionStatus.conditionFalse, reason, message,
        sr.metadata.generation⟩
    let sr' := { sr with
      status := { sr.status with
        conditions := setStatusCondition sr.status.conditions cond
        connectionStatus := "Unreachable" } }
    (c.putRegistry key sr', none)

/-- Go `SchemaRegistryReconciler.Reconcile` (schemaregistry controller):
resolve credentials, build the client, health-check, publish connectivity
status, requeue after 5 minutes. -/
def Reconcile (healthOutcome : HttpOutcome) (now : Nat) (c : Cluster)
    (req : NamespacedName) : ReconcileOutcome :=
  match c.getRegistry req with
  | none => ⟨c, ⟨0⟩, none⟩
  | some sr =>
    match loadAuthConfig c sr with
    | Except.error e =>
      let u := setConditionFailed c req "AuthLoadFailed" e
      ⟨u.1, ⟨0⟩, u.2⟩
    | Except.ok authConfig =>
      let timeout := if sr.spec.timeout = 0 then 30 else sr.spec.timeout
      match NewClient sr.spec.url authConfig timeout sr.spec.insecureSkipVerify with
      | Except.error e =>
        let u := setConditionFailed c req "ClientCreateFailed" e
        ⟨u.1, ⟨0⟩, u.2⟩
      | Except.ok _ =>
        let healthErr := HealthCheck healthOutcome
        let cond : Condition :=
          match healthErr with
          | Except.error he =>
            ⟨"Ready", ConditionStatus.conditionFalse, "ConnectionFailed", he,
              sr.metadata.generation⟩
          | Except.ok _ =>
            ⟨"Ready", ConditionStatus.conditionTrue, "Connected",
              "Successfully connected to Schema Registry",
              sr.metadata.generation⟩
        let connStatus :=
          match healthErr with
          | Except.error _ => "Unreachable"
          | Except.ok _ => "Connected"
        let sr' := { sr with
          status :=
            ⟨connStatus, some now, sr.metadata.generation,
              setStatusCondition sr.status.conditions cond⟩ }
        ⟨c.putRegistry req sr', ⟨300⟩, none⟩

end SchemaRegistryReconciler

/-! ## Concrete fixtures used by witnesses and counterexamples -/

/-- Key of the example Schema resource. -/
def exKey : NamespacedName := ⟨"default", "my-schema"⟩

/-- Key of the example SchemaRegistry resource. -/
def exRegKey : NamespacedName := ⟨"default", "my-registry"⟩

/-- An example SchemaRegistry with no auth and a 5-second timeout. -/
def exRegistry : SchemaRegistry :=
  ⟨⟨"my-registry", "default", 1, false, []⟩,
   ⟨"http://registry:8081", none, false, 5⟩,
   ⟨"", none, 0, []⟩⟩

/-- The example Schema spec: subject users-value, AVRO, registryRef to
my-registry in the same namespace, no compatibility level. -/
def exSchemaSpec : SchemaSpec :=
  ⟨"users-value", "AVRO", "schema-content", [], ⟨"my-registry", ""⟩, ""⟩

/-- A Schema under deletion with the finalizer attached. -/
def exDeletingSchema : Schema :=
  ⟨⟨"my-schema", "default", 2, true, [schemaFinalizer]⟩, exSchemaSpec,
   ⟨none, none, none, 0, []⟩⟩

/-- A live Schema (no deletion timestamp) with the finalizer attached and
previously committed status fields. -/
def exActiveSchema : Schema :=
  ⟨⟨"my-schema", "default", 3, false, [schemaFinalizer]⟩, exSchemaSpec,
   ⟨some 7, some 1, some 11, 2, []⟩⟩

/-- Cluster holding the deleting Schema and its registry. -/
def exClusterDel : Cluster :=
  ⟨[(exKey, exDeletingSchema)], [(exRegKey, exRegistry)], []⟩

/-- Cluster holding the deleting Schema but no registry at all. -/
def exClusterDelNoReg : Cluster :=
  ⟨[(exKey, exDeletingSchema)], [], []⟩

/-- Cluster holding the live Schema and its registry. -/
def exClusterActive : Cluster :=
  ⟨[(exKey, exActiveSchema)], [(exRegKey, exRegistry)], []⟩

/-- World where the registry answers DELETE with a 500. -/
def exWorldDeleteFail : RegistryWorld :=
  ⟨HttpOutcome.resp 200 "", HttpOutcome.resp 200 "", HttpOutcome.resp 200 "",
   HttpOutcome.resp 500 "boom"⟩

/-- World where registration is rejected with a 422. -/
def exWorldRegisterFail : RegistryWorld :=
  ⟨HttpOutcome.resp 422 "bad-schema", HttpOutcome.resp 200 "", HttpOutcome.resp 200 "",
   HttpOutcome.resp 200 ""⟩

/-- Register response body: the registry answers `{"id":42}`. -/
def idBody42 : String := "\x7b\"id\":42\x7d"

/-- Latest-version response body: `{"id":42,"version":3,"schema":"x"}`. -/
def latestBody42v3 : String :=
  "\x7b\"id\":42,\"version\":3,\"schema\":\"x\"\x7d"

/-- World realizing the spec scenario: register returns `{"id":42}` and
the latest-version read returns version 3. -/
def exWorldRegisterOk : RegistryWorld :=
  ⟨HttpOutcome.resp 200 idBody42, HttpOutcome.resp 200 latestBody42v3,
   HttpOutcome.resp 200 "", HttpOutcome.resp 200 ""⟩

/-- World where registration succeeds but the latest-version follow-up
read fails with a 500. -/
def exWorldVersionFail : RegistryWorld :=
  ⟨HttpOutcome.resp 200 idBody42, HttpOutcome.resp 500 "down",
   HttpOutcome.resp 200 "", HttpOutcome.resp 200 ""⟩

/-- A registry whose auth strategy is BASIC but with no basicAuth config:
credential resolution fails. -/
def exRegistryAuthBroken : SchemaRegistry :=
  ⟨⟨"my-registry", "default", 4, false, []⟩,
   ⟨"http://registry:8081", some ⟨AuthType.basic, none, none, none⟩, false, 5⟩,
   ⟨"", none, 0, []⟩⟩

/-- Cluster holding only the auth-broken registry. -/
def exClusterAuthBroken : Cluster :=
  ⟨[], [(exRegKey, exRegistryAuthBroken)], []⟩

/-- Cluster holding the plain registry (for connectivity reconciles). -/
def exClusterRegOnly : Cluster :=
  ⟨[], [(exRegKey, exRegistry)], []⟩

/-- A registry declaring BASIC auth against secret `creds`. -/
def exRegistryBasic : SchemaRegistry :=
  ⟨⟨"my-registry", "default", 1, false, []⟩,
   ⟨"http://registry:8081",
    some ⟨AuthType.basic, some ⟨"creds"⟩, none, none⟩, false, 5⟩,
   ⟨"", none, 0, []⟩⟩

/-- Cluster where the `creds` secret exists but carries no keys at all. -/
def exClusterBasicEmptySecret : Cluster :=
  ⟨[], [(exRegKey, exRegistryBasic)], [(⟨"default", "creds"⟩, ⟨[]⟩)]⟩

/-- Cluster where the `creds` secret carries username and password. -/
def exClusterBasicFullSecret : Cluster :=
  ⟨[], [(exRegKey, exRegistryBasic)],
   [(⟨"default", "creds"⟩, ⟨[("username", "alice"), ("password", "pw")]⟩)]⟩

/-- Metadata of a registry living in namespace `nsB`. -/
def exRegistryMetaB : ObjectMeta := ⟨"r", "nsB", 1, false, []⟩

/-- A Schema in namespace `nsA` whose registryRef names registry `r` in
namespace `nsB` (a cross-namespace reference). -/
def exCrossNsSchema : Schema :=
  ⟨⟨"s1", "nsA", 1, false, [schemaFinalizer]⟩,
   ⟨"users-value", "AVRO", "schema-content", [], ⟨"r", "nsB"⟩, ""⟩,
   ⟨none, none, none, 0, []⟩⟩

/-- Cluster holding only the cross-namespace Schema. -/
def exClusterCrossNs : Cluster :=
  ⟨[(⟨"nsA", "s1"⟩, exCrossNsSchema)], [], []⟩

/-! ## Theorems -/

/-- C9: DeleteSubject returns success whenever the registry responds with
404 (idempotent delete of a never-created or already-deleted subject), a
200 response is also success, and any other status yields an error. -/
theorem C9_delete_idempotent (body : String) (s : Nat) :
    DeleteSubject (HttpOutcome.resp 404 body) = Except.ok ()
    ∧ DeleteSubject (HttpOutcome.resp 200 body) = Except.ok ()
    ∧ (s ≠ 200 → s ≠ 404 →
        isErr (DeleteSubject (HttpOutcome.resp s body)) = true) := by
  refine ⟨rfl, rfl, ?_⟩
  intro h200 h404
  simp [DeleteSubject, h200, h404, isErr]

/-- C9 witness: concrete instances — 404 and 200 succeed, 500 fails. -/
theorem C9_witness :
    DeleteSubject (HttpOutcome.resp 404 "gone") = Except.ok ()
    ∧ DeleteSubject (HttpOutcome.resp 200 "deleted") = Except.ok ()
    ∧ isErr (DeleteSubject (HttpOutcome.resp 500 "err")) = true :=
  ⟨(C9_delete_idempotent "gone" 500).1,
   (C9_delete_idempotent "deleted" 500).2.1,
   (C9_delete_idempotent "err" 500).2.2 (by decide) (by decide)⟩

/-- C4 counterexample: a 503 on HealthCheck produces an error that names
the status but does not include the response body, refuting the claim
that every operation's error carries both. -/
theorem C4_counterexample :
    HealthCheck (HttpOutcome.resp 503 "RESPBODY")
      = Except.error "health check failed with status: 503"
    ∧ strContains "health check failed with status: 503" "503" = true
    ∧ strContains "health check failed with status: 503" "RESPBODY" = false := by
  refine ⟨by decide, by decide, by decide⟩

/-- C4 (amended): for every non-200 status, RegisterSchema, DeleteSubject
(status also ≠ 404) and SetCompatibility return an error carrying exactly
the status and the response body, while HealthCheck and the
latest-version read return an error carrying only the status (their
message is independent of the body). -/
theorem C4_amended (s : Nat) (body : String) (lo : HttpOutcome) (hs : s ≠ 200) :
    RegisterSchema (HttpOutcome.resp s body) lo
      = Except.error ("schema registration failed with status " ++ toString s ++ ": " ++ body)
    ∧ (s ≠ 404 → DeleteSubject (HttpOutcome.resp s body)
        = Except.error ("delete subject failed with status " ++ toString s ++ ": " ++ body))
    ∧ SetCompatibility (HttpOutcome.resp s body)
        = Except.error ("set compatibility failed with status " ++ toString s ++ ": " ++ body)
    ∧ HealthCheck (HttpOutcome.resp s body)
        = Except.error ("health check failed with status: " ++ toString s)
    ∧ getLatestVersionForSubject (HttpOutcome.resp s body)
        = Except.error ("get latest version failed with status: " ++ toString s) := by
  refine ⟨?_, ?_, ?_, ?_, ?_⟩
  · simp [RegisterSchema, hs]
  · intro h404
    simp [DeleteSubject, hs, h404]
  · simp [SetCompatibility, hs]
  · simp [HealthCheck, hs]
  · simp [getLatestVersionForSubject, hs]

/-- C4 witness: concrete 503 responses with body RESPBODY. -/
theorem C4_witness :
    RegisterSchema (HttpOutcome.resp 503 "RESPBODY") (HttpOutcome.resp 200 "x")
      = Except.error "schema registration failed with status 503: RESPBODY"
    ∧ DeleteSubject (HttpOutcome.resp 503 "RESPBODY")
      = Except.error "delete subject failed with status 503: RESPBODY"
    ∧ SetCompatibility (HttpOutcome.resp 503 "RESPBODY")
      = Except.error "set compatibility failed with status 503: RESPBODY"
    ∧ HealthCheck (HttpOutcome.resp 503 "RESPBODY")
      = Except.error "health check failed with status: 503"
    ∧ getLatestVersionForSubject (HttpOutcome.resp 503 "RESPBODY")
      = Except.error "get latest version failed with status: 503" := by
  have h := C4_amended 503 "RESPBODY" (HttpOutcome.resp 200 "x") (by decide)
  exact ⟨h.1.trans (by decide), (h.2.1 (by decide)).trans (by decide),
    h.2.2.1.trans (by decide), h.2.2.2.1.trans (by decide),
    h.2.2.2.2.trans (by decide)⟩

/-- C5: RegisterSchema on a 200 register response decoding to id `i`
performs the follow-up latest-version read: if the follow-up fails the
registration still succeeds carrying only the id (version 0); if it
yields version `v` the result is `{id := i, version := v}`. -/
theorem C5_register_best_effort_version (body : String) (i : Int)
    (lo : HttpOutcome) (hdec : decodeIdResp body = some i) :
    (∀ e, getLatestVersionForSubject lo = Except.error e →
      RegisterSchema (HttpOutcome.resp 200 body) lo = Except.ok ⟨i, 0, ""⟩)
    ∧ (∀ v, getLatestVersionForSubject lo = Except.ok v →
      RegisterSchema (HttpOutcome.resp 200 body) lo = Except.ok ⟨i, v, ""⟩) := by
  constructor
  · intro e hlo
    simp [RegisterSchema, hdec, hlo]
  · intro v hlo
    simp [RegisterSchema, hdec, hlo]

/-- C5 witness: the spec scenario — register answers `{"id":42}`, the
latest-version read answers `{"id":42,"version":3,...}`, and the result
is id 42, version 3; moreover, when the follow-up read instead fails
with a 500, the result is id 42, version 0. -/
theorem C5_witness :
    RegisterSchema (HttpOutcome.resp 200 idBody42) (HttpOutcome.resp 200 latestBody42v3)
      = Except.ok ⟨42, 3, ""⟩
    ∧ RegisterSchema (HttpOutcome.resp 200 idBody42) (HttpOutcome.resp 500 "down")
      = Except.ok ⟨42, 0, ""⟩ :=
  ⟨(C5_register_best_effort_version idBody42 42 (HttpOutcome.resp 200 latestBody42v3)
      (by decide)).2 3 (by decide),
   (C5_register_best_effort_version idBody42 42 (HttpOutcome.resp 500 "down")
      (by decide)).1 "get latest version failed with status: 500" (by decide)⟩

/-- A missing secret key reads as the empty string. -/
theorem secret_get_of_no_key (s : Secret) (k : String) (h : s.hasKey k = false) :
    s.get k = "" := by
  unfold Secret.get
  cases hfind : s.data.find? (fun p => p.1 = k) with
  | none => rfl
  | some p =>
    exfalso
    have hp := List.find?_some hfind
    have hmem := List.mem_of_find?_eq_some hfind
    have hany : s.data.any (fun q => decide (q.1 = k)) = true :=
      List.any_eq_true.mpr ⟨p, hmem, hp⟩
    rw [Secret.hasKey] at h
    rw [hany] at h
    exact Bool.noConfusion h

/-- X509KeyPair fails on an empty certificate block. -/
theorem x509_empty_crt (y : String) : X509KeyPair "" y = none := by
  unfold X509KeyPair
  rw [if_pos (Or.inl (by decide : ("" : String).isEmpty = true))]

/-- X509KeyPair fails on an empty key block. -/
theorem x509_empty_key (x : String) : X509KeyPair x "" = none := by
  unfold X509KeyPair
  rw [if_pos (Or.inr (by decide : ("" : String).isEmpty = true))]

/-- C2 counterexample: with strategy Basic and an existing secret that
carries neither `username` nor `password`, the resolver returns a bundle
with empty credentials and no error, refuting the claim that a missing
required key is a configuration error. -/
theorem C2_counterexample :
    (exClusterBasicEmptySecret.getSecret ⟨"default", "creds"⟩).map
        (fun s => s.hasKey "username" || s.hasKey "password") = some false
    ∧ loadAuthConfig exClusterBasicEmptySecret exRegistryBasic
        = Except.ok ⟨"BASIC", "", "", "", none, none⟩ := by
  refine ⟨by decide, by decide⟩

/-- C2 (amended): the resolver errors when the strategy's config block or
its referenced secret is missing; for None it returns the empty bundle;
for Basic and Bearer an existing secret resolves without error, reading
missing keys as empty strings; for MutualTLS a missing `tls.crt` or
`tls.key` key is a parse error.  The produced bundle carries exactly the
fields of the selected strategy. -/
theorem C2_amended (c : Cluster) (sr : SchemaRegistry) :
    (sr.spec.auth = none → loadAuthConfig c sr = Except.ok emptyAuthConfig)
    ∧ (∀ a, sr.spec.auth = some a → a.authType = AuthType.none_ →
        loadAuthConfig c sr = Except.ok emptyAuthConfig)
    ∧ (∀ a, sr.spec.auth = some a → a.authType = AuthType.basic →
        a.basicAuth = none →
        loadAuthConfig c sr
          = Except.error "basicAuth config is required when type is BASIC")
    ∧ (∀ a b, sr.spec.auth = some a → a.authType = AuthType.basic →
        a.basicAuth = some b →
        c.getSecret ⟨sr.metadata.ns, b.secretRef⟩ = none →
        isErr (loadAuthConfig c sr) = true)
    ∧ (∀ a b s, sr.spec.auth = some a → a.authType = AuthType.basic →
        a.basicAuth = some b →
        c.getSecret ⟨sr.metadata.ns, b.secretRef⟩ = some s →
        loadAuthConfig c sr
          = Except.ok ⟨"BASIC", s.get "username", s.get "password", "", none, none⟩)
    ∧ (∀ a, sr.spec.auth = some a → a.authType = AuthType.bearer →
        a.bearerAuth = none →
        loadAuthConfig c sr
          = Except.error "bearerAuth config is required when type is BEARER")
    ∧ (∀ a b, sr.spec.auth = some a → a.authType = AuthType.bearer →
        a.bearerAuth = some b →
        c.getSecret ⟨sr.metadata.ns, b.secretRef⟩ = none →
        isErr (loadAuthConfig c sr) = true)
    ∧ (∀ a b s, sr.spec.auth = some a → a.authType = AuthType.bearer →
        a.bearerAuth = some b →
        c.getSecret ⟨sr.metadata.ns, b.secretRef⟩ = some s →
        loadAuthConfig c sr
          = Except.ok ⟨"BEARER", "", "", s.get "token", none, none⟩)
    ∧ (∀ a m s, sr.spec.auth = some a → a.authType = AuthType.mtls →
        a.mtls = some m →
        c.getSecret ⟨sr.metadata.ns, m.certSecretRef⟩ = some s →
        (s.hasKey "tls.crt" = false ∨ s.hasKey "tls.key" = false) →
        loadAuthConfig c sr = Except.error "failed to parse client certificate")
    ∧ (∀ a, sr.spec.auth = some a → a.authType = AuthType.mtls →
        a.mtls = none →
        loadAuthConfig c sr
          = Except.error "mtls config is required when type is MTLS")
    ∧ (∀ a m, sr.spec.auth = some a → a.authType = AuthType.mtls →
        a.mtls = some m →
        c.getSecret ⟨sr.metadata.ns, m.certSecretRef⟩ = none →
        isErr (loadAuthConfig c sr) = true) := by
  refine ⟨?_, ?_, ?_, ?_, ?_, ?_, ?_, ?_, ?_, ?_, ?_⟩
  · intro h
    simp [loadAuthConfig, h]
  · intro a ha ht
    simp [loadAuthConfig, ha, ht, emptyAuthConfig, AuthType.toStr]
  · intro a ha ht hb
    simp [loadAuthConfig, ha, ht, hb]
  · intro a b ha ht hb hsec
    simp [loadAuthConfig, ha, ht, hb, hsec, isErr]
  · intro a b s ha ht hb hsec
    simp [loadAuthConfig, ha, ht, hb, hsec, emptyAuthConfig, AuthType.toStr]
  · intro a ha ht hb
    simp [loadAuthConfig, ha, ht, hb]
  · intro a b ha ht hb hsec
    simp [loadAuthConfig, ha, ht, hb, hsec, isErr]
  · intro a b s ha ht hb hsec
    simp [loadAuthConfig, ha, ht, hb, hsec, emptyAuthConfig, AuthType.toStr]
  · intro a m s ha ht hm hsec hkey
    cases hkey with
    | inl hk =>
      have hget := secret_get_of_no_key s "tls.crt" hk
      simp [loadAuthConfig, ha, ht, hm, hsec, hget, x509_empty_crt]
    | inr hk =>
      have hget := secret_get_of_no_key s "tls.key" hk
      simp [loadAuthConfig, ha, ht, hm, hsec, hget, x509_empty_key]
  · intro a ha ht hm
    simp [loadAuthConfig, ha, ht, hm]
  · intro a m ha ht hm hsec
    simp [loadAuthConfig, ha, ht, hm, hsec, isErr]

/-- C2 witness: Basic auth against a secret carrying username alice and
password pw resolves to exactly that bundle. -/
theorem C2_witness :
    loadAuthConfig exClusterBasicFullSecret exRegistryBasic
      = Except.ok ⟨"BASIC", "alice", "pw", "", none, none⟩ := by
  have h := (C2_amended exClusterBasicFullSecret exRegistryBasic).2.2.2.2.1
    ⟨AuthType.basic, some ⟨"creds"⟩, none, none⟩ ⟨"creds"⟩
    ⟨[("username", "alice"), ("password", "pw")]⟩
    (by decide) (by decide) (by decide) (by decide)
  exact h.trans (by decide)

/-- C1 counterexample: a Schema under deletion with its finalizer whose
registry is resolvable but answers DELETE with a 500 — the reconcile
returns the delete error and leaves the cluster (and so the finalizer)
untouched, refuting unconditional finalizer removal. -/
theorem C1_counterexample :
    (SchemaReconciler.Reconcile exWorldDeleteFail 100 exClusterDel exKey).err
        = some "delete subject failed with status 500: boom"
    ∧ ((SchemaReconciler.Reconcile exWorldDeleteFail 100 exClusterDel exKey).cluster.getSchema
          exKey).map (fun s => s.metadata.finalizers.contains schemaFinalizer)
        = some true := by
  refine ⟨by decide, by decide⟩

/-- C1 (amended): for a Schema under deletion with the finalizer, the
reconcile removes the finalizer with no error when the client cannot be
built (registry unresolvable or credentials unloadable) or when
DeleteSubject succeeds; but when the client builds and DeleteSubject
fails, the reconcile returns that error and keeps the finalizer. -/
theorem C1_amended (w : RegistryWorld) (now : Nat) (c : Cluster)
    (req : NamespacedName) (schema : Schema)
    (hget : c.getSchema req = some schema)
    (hdel : schema.metadata.deletionTimestampSet = true)
    (hfin : schemaFinalizer ∈ schema.metadata.finalizers) :
    (∀ e, SchemaReconciler.buildClient c schema = Except.error e →
      SchemaReconciler.Reconcile w now c req =
        ⟨c.putSchema req { schema with metadata := { schema.metadata with
            finalizers := schema.metadata.finalizers.filter
              (fun f => f ≠ schemaFinalizer) } },
          ⟨0⟩, none⟩)
    ∧ (∀ cl, SchemaReconciler.buildClient c schema = Except.ok cl →
        ∀ e, DeleteSubject w.deleteOutcome = Except.error e →
          SchemaReconciler.Reconcile w now c req = ⟨c, ⟨0⟩, some e⟩)
    ∧ (∀ cl, SchemaReconciler.buildClient c schema = Except.ok cl →
        DeleteSubject w.deleteOutcome = Except.ok () →
          SchemaReconciler.Reconcile w now c req =
            ⟨c.putSchema req { schema with metadata := { schema.metadata with
                finalizers := schema.metadata.finalizers.filter
                  (fun f => f ≠ schemaFinalizer) } },
              ⟨0⟩, none⟩) := by
  refine ⟨?_, ?_, ?_⟩
  · intro e hbuild
    simp [SchemaReconciler.Reconcile, hget, hdel, hfin,
      SchemaReconciler.deleteFromRegistry, hbuild]
  · intro cl hbuild e hdelete
    simp [SchemaReconciler.Reconcile, hget, hdel, hfin,
      SchemaReconciler.deleteFromRegistry, hbuild, hdelete]
  · intro cl hbuild hdelete
    simp [SchemaReconciler.Reconcile, hget, hdel, hfin,
      SchemaReconciler.deleteFromRegistry, hbuild, hdelete]

/-- C1 witness: the DELETE-fails branch at a concrete cluster. -/
theorem C1_witness :
    SchemaReconciler.Reconcile exWorldDeleteFail 100 exClusterDel exKey
      = ⟨exClusterDel, ⟨0⟩, some "delete subject failed with status 500: boom"⟩ :=
  (C1_amended exWorldDeleteFail 100 exClusterDel exKey exDeletingSchema
      (by decide) (by decide) (by decide)).2.1
    ⟨"http://registry:8081", emptyAuthConfig, 5, false⟩ (by decide)
    "delete subject failed with status 500: boom" (by decide)

/-- C8: a Schema under deletion with the finalizer whose client cannot be
built (in particular, its registry no longer exists) has cleanup skipped,
the finalizer removed, and the reconcile succeeds; the removed-finalizer
list no longer contains the finalizer. -/
theorem C8_deletion_registry_gone (w : RegistryWorld) (now : Nat) (c : Cluster)
    (req : NamespacedName) (schema : Schema) (e : String)
    (hget : c.getSchema req = some schema)
    (hdel : schema.metadata.deletionTimestampSet = true)
    (hfin : schemaFinalizer ∈ schema.metadata.finalizers)
    (hbuild : SchemaReconciler.buildClient c schema = Except.error e) :
    SchemaReconciler.Reconcile w now c req =
      ⟨c.putSchema req { schema with metadata := { schema.metadata with
          finalizers := schema.metadata.finalizers.filter
            (fun f => f ≠ schemaFinalizer) } },
        ⟨0⟩, none⟩
    ∧ schemaFinalizer ∉ schema.metadata.finalizers.filter
        (fun f => f ≠ schemaFinalizer) := by
  constructor
  · simp [SchemaReconciler.Reconcile, hget, hdel, hfin,
      SchemaReconciler.deleteFromRegistry, hbuild]
  · simp

/-- C8 witness: deleting Schema, no registry in the cluster — the
finalizer list ends empty and the reconcile returns success. -/
theorem C8_witness :
    SchemaReconciler.Reconcile exWorldDeleteFail 100 exClusterDelNoReg exKey
      = ⟨⟨[(exKey, { exDeletingSchema with metadata :=
            { exDeletingSchema.metadata with finalizers := [] } })], [], []⟩,
          ⟨0⟩, none⟩ := by
  have h := (C8_deletion_registry_gone exWorldDeleteFail 100 exClusterDelNoReg exKey
      exDeletingSchema "failed to get SchemaRegistry my-registry"
      (by decide) (by decide) (by decide) (by decide)).1
  exact h.trans (by decide)

/-- C6: for a live Schema with its finalizer, a client-build failure or a
registration failure sets only the Ready=False condition (reason
ClientBuildFailed or RegistrationFailed, message the error), requeues
after one minute, returns no error, and leaves the finalizer and all
other status fields (schemaID, version, registeredAt,
observedGeneration) unchanged. -/
theorem C6_registration_failure_frame (w : RegistryWorld) (now : Nat) (c : Cluster)
    (req : NamespacedName) (schema : Schema)
    (hget : c.getSchema req = some schema)
    (hdel : schema.metadata.deletionTimestampSet = false)
    (hfin : schemaFinalizer ∈ schema.metadata.finalizers) :
    (∀ e, SchemaReconciler.buildClient c schema = Except.error e →
      SchemaReconciler.Reconcile w now c req =
        ⟨c.putSchema req { schema with status := { schema.status with
            conditions := setStatusCondition schema.status.conditions
              ⟨"Ready", ConditionStatus.conditionFalse, "ClientBuildFailed", e,
                schema.metadata.generation⟩ } },
          ⟨60⟩, none⟩)
    ∧ (∀ cl, SchemaReconciler.buildClient c schema = Except.ok cl →
        ∀ e, RegisterSchema w.registerOutcome w.latestOutcome = Except.error e →
          SchemaReconciler.Reconcile w now c req =
            ⟨c.putSchema req { schema with status := { schema.status with
                conditions := setStatusCondition schema.status.conditions
                  ⟨"Ready", ConditionStatus.conditionFalse, "RegistrationFailed", e,
                    schema.metadata.generation⟩ } },
              ⟨60⟩, none⟩) := by
  constructor
  · intro e hbuild
    simp [SchemaReconciler.Reconcile, hget, hdel, hfin,
      SchemaReconciler.setConditionFailed, hbuild]
  · intro cl hbuild e hreg
    simp [SchemaReconciler.Reconcile, hget, hdel, hfin,
      SchemaReconciler.setConditionFailed, hbuild, hreg]

/-- C6 witness: registration rejected with a 422 — only the condition
list changes, the previously committed schemaID 7 / version 1 /
registeredAt 11 / observedGeneration 2 and the finalizer survive. -/
theorem C6_witness :
    SchemaReconciler.Reconcile exWorldRegisterFail 100 exClusterActive exKey
      = ⟨⟨[(exKey, { exActiveSchema with status := { exActiveSchema.status with
            conditions := [⟨"Ready", ConditionStatus.conditionFalse,
              "RegistrationFailed",
              "schema registration failed with status 422: bad-schema", 3⟩] } })],
          [(exRegKey, exRegistry)], []⟩,
          ⟨60⟩, none⟩ := by
  have h := (C6_registration_failure_frame exWorldRegisterFail 100 exClusterActive exKey
      exActiveSchema (by decide) (by decide) (by decide)).2
    ⟨"http://registry:8081", emptyAuthConfig, 5, false⟩ (by decide)
    "schema registration failed with status 422: bad-schema" (by decide)
  exact h.trans (by decide)

/-- C10: when registration succeeds (register response 200 decoding to id
`i`) but the latest-version follow-up read fails, the reconciler commits
Ready=True/Registered with status.version set to `some 0` (a present
pointer to zero, not an absent field) and a message reporting version 0. -/
theorem C10_version_zero_committed (w : RegistryWorld) (now : Nat) (c : Cluster)
    (req : NamespacedName) (schema : Schema) (cl : SchemaRegistryClient)
    (body : String) (i : Int) (e : String)
    (hget : c.getSchema req = some schema)
    (hdel : schema.metadata.deletionTimestampSet = false)
    (hfin : schemaFinalizer ∈ schema.metadata.finalizers)
    (hbuild : SchemaReconciler.buildClient c schema = Except.ok cl)
    (hreg : w.registerOutcome = HttpOutcome.resp 200 body)
    (hdec : decodeIdResp body = some i)
    (hlat : getLatestVersionForSubject w.latestOutcome = Except.error e) :
    SchemaReconciler.Reconcile w now c req =
      ⟨c.putSchema req { schema with status :=
          ⟨some i, some 0, some now, schema.metadata.generation,
            setStatusCondition schema.status.conditions
              ⟨"Ready", ConditionStatus.conditionTrue, "Registered",
                "Schema registered with ID " ++ toString i ++ ", version "
                  ++ toString (0 : Int),
                schema.metadata.generation⟩⟩ },
        ⟨0⟩, none⟩ := by
  have hr : RegisterSchema w.registerOutcome w.latestOutcome = Except.ok ⟨i, 0, ""⟩ := by
    rw [hreg]
    simp [RegisterSchema, hdec, hlat]
  simp [SchemaReconciler.Reconcile, hget, hdel, hfin, hbuild, hr]

/-- C10 witness: register answers `{"id":42}`, the follow-up read fails
with a 500 — the committed status carries schemaID 42, version `some 0`,
and the message "Schema registered with ID 42, version 0". -/
theorem C10_witness :
    SchemaReconciler.Reconcile exWorldVersionFail 100 exClusterActive exKey
      = ⟨⟨[(exKey, { exActiveSchema with status :=
            ⟨some 42, some 0, some 100, 3,
              [⟨"Ready", ConditionStatus.conditionTrue, "Registered",
                "Schema registered with ID 42, version 0", 3⟩]⟩ })],
          [(exRegKey, exRegistry)], []⟩,
          ⟨0⟩, none⟩ := by
  have h := C10_version_zero_committed exWorldVersionFail 100 exClusterActive exKey
    exActiveSchema ⟨"http://registry:8081", emptyAuthConfig, 5, false⟩
    idBody42 42 "get latest version failed with status: 500"
    (by decide) (by decide) (by decide) (by decide) (by decide) (by decide) (by decide)
  exact h.trans (by decide)

/-- C3 counterexample: a registry whose BASIC auth lacks its basicAuth
block — the connectivity reconcile returns with no requeue (not the
5-minute interval) and writes neither lastCheckedAt nor
status.observedGeneration, refuting "regardless of outcome". -/
theorem C3_counterexample :
    SchemaRegistryReconciler.Reconcile (HttpOutcome.resp 200 "[]") 50
        exClusterAuthBroken exRegKey
      = ⟨⟨[], [(exRegKey, { exRegistryAuthBroken with status :=
          ⟨"Unreachable", none, 0,
            [⟨"Ready", ConditionStatus.conditionFalse, "AuthLoadFailed",
              "basicAuth config is required when type is BASIC", 4⟩]⟩ })], []⟩,
        ⟨0⟩, none⟩ := by
  decide

/-- C3 (amended): once credentials resolve, the connectivity reconcile
always writes lastCheckedAt, observedGeneration, connectionStatus and a
Ready condition matching the health-check outcome, returns no error, and
requeues after 5 minutes; on a credential-resolution failure it instead
writes only a Ready=False/AuthLoadFailed condition and
connectionStatus=Unreachable (lastCheckedAt and observedGeneration
untouched), returns no error, and does not requeue. -/
theorem C3_amended (ho : HttpOutcome) (now : Nat) (c : Cluster)
    (req : NamespacedName) (sr : SchemaRegistry)
    (hget : c.getRegistry req = some sr) :
    (∀ cfg, loadAuthConfig c sr = Except.ok cfg →
      (HealthCheck ho = Except.ok () →
        SchemaRegistryReconciler.Reconcile ho now c req =
          ⟨c.putRegistry req { sr with status :=
              ⟨"Connected", some now, sr.metadata.generation,
                setStatusCondition sr.status.conditions
                  ⟨"Ready", ConditionStatus.conditionTrue, "Connected",
                    "Successfully connected to Schema Registry",
                    sr.metadata.generation⟩⟩ },
            ⟨300⟩, none⟩)
      ∧ (∀ he, HealthCheck ho = Except.error he →
        SchemaRegistryReconciler.Reconcile ho now c req =
          ⟨c.putRegistry req { sr with status :=
              ⟨"Unreachable", some now, sr.metadata.generation,
                setStatusCondition sr.status.conditions
                  ⟨"Ready", ConditionStatus.conditionFalse, "ConnectionFailed", he,
                    sr.metadata.generation⟩⟩ },
            ⟨300⟩, none⟩))
    ∧ (∀ e, loadAuthConfig c sr = Except.error e →
        SchemaRegistryReconciler.Reconcile ho now c req =
          ⟨c.putRegistry req { sr with status := { sr.status with
              conditions := setStatusCondition sr.status.conditions
                ⟨"Ready", ConditionStatus.conditionFalse, "AuthLoadFailed", e,
                  sr.metadata.generation⟩
              connectionStatus := "Unreachable" } },
            ⟨0⟩, none⟩) := by
  constructor
  · intro cfg hcfg
    constructor
    · intro hok
      simp [SchemaRegistryReconciler.Reconcile, hget, hcfg, NewClient, hok]
    · intro he herr
      simp [SchemaRegistryReconciler.Reconcile, hget, hcfg, NewClient, herr]
  · intro e herr
    simp [SchemaRegistryReconciler.Reconcile, hget, herr,
      SchemaRegistryReconciler.setConditionFailed]

/-- C3 witness: a 503 health answer — lastCheckedAt and
observedGeneration are written, the Ready condition goes False with
reason ConnectionFailed, no error is returned, requeue in 300 seconds. -/
theorem C3_witness :
    SchemaRegistryReconciler.Reconcile (HttpOutcome.resp 503 "down") 77
        exClusterRegOnly exRegKey
      = ⟨⟨[], [(exRegKey, { exRegistry with status :=
          ⟨"Unreachable", some 77, 1,
            [⟨"Ready", ConditionStatus.conditionFalse, "ConnectionFailed",
              "health check failed with status: 503", 1⟩]⟩ })], []⟩,
        ⟨300⟩, none⟩ := by
  have h := ((C3_amended (HttpOutcome.resp 503 "down") 77 exClusterRegOnly exRegKey
      exRegistry (by decide)).1 emptyAuthConfig (by decide)).2
    "health check failed with status: 503" (by decide)
  exact h.trans (by decide)

/-- C7 counterexample: a Schema in namespace nsA referencing registry r
in namespace nsB via registryRef.namespace is not enqueued when that
registry changes — the router returns the empty request list. -/
theorem C7_counterexample :
    SchemaReconciler.findSchemasForRegistry exClusterCrossNs exRegistryMetaB = []
    ∧ exCrossNsSchema.spec.registryRef.name = exRegistryMetaB.name
    ∧ exCrossNsSchema.spec.registryRef.ns = exRegistryMetaB.ns := by
  decide

/-- C7 (amended): a registry change enqueues exactly the Schemas residing
in the registry's own namespace whose registryRef.name equals the
registry's name; Schemas in other namespaces are never enqueued, and
registryRef.namespace plays no role in the match. -/
theorem C7_amended (c : Cluster) (reg : ObjectMeta) (k : NamespacedName) :
    k ∈ SchemaReconciler.findSchemasForRegistry c reg ↔
      ∃ p ∈ c.schemas, p.2.metadata.ns = reg.ns
        ∧ p.2.spec.registryRef.name = reg.name
        ∧ k = ⟨p.2.metadata.ns, p.2.metadata.name⟩ := by
  simp only [SchemaReconciler.findSchemasForRegistry, List.mem_map,
    List.mem_filter, List.mem_map]
  constructor
  · rintro ⟨s, ⟨⟨⟨p, hp, rfl⟩, hns⟩, hname⟩, rfl⟩
    exact ⟨p, hp, by simpa using hns, by simpa using hname, rfl⟩
  · rintro ⟨p, hp, hns, hname, rfl⟩
    exact ⟨p.2, ⟨⟨⟨p, hp, rfl⟩, by simpa using hns⟩, by simpa using hname⟩, rfl⟩

end SchemaOperator
